import Mathlib

/-!
Shallow embedding of the seeds-visitor-app HTTP server variants
(src/server1.js, src/server8.js, src/unnamed/part_000) and proofs about
the visitor-lifecycle claims: check-in, check-out, login, listing and the
QR-pass payload.  Machine timestamps (the Node process clock and the SQL
server GETDATE clock) are modelled as explicit Nat-valued clock readings
passed to each operation; the bcrypt comparison primitive is modelled as
an explicit Boolean-valued function argument, and each login model also
returns the list of (password, hash) pairs it compared, so that the
number and targets of hash comparisons are observable.
-/

namespace VisitorApp

/-- Opening curly brace character, written via its code point. -/
def lbrace : Char := Char.ofNat 123

/-- Closing curly brace character, written via its code point. -/
def rbrace : Char := Char.ofNat 125

/-- Model of the string escaping JSON.stringify applies to the characters
of a string value: a double quote or backslash is preceded by a
backslash; every other character is copied unchanged. -/
def escapeChars : List Char → List Char
  | [] => []
  | c :: rest =>
    if c = '"' ∨ c = '\\' then '\\' :: c :: escapeChars rest
    else c :: escapeChars rest

/-- Scan the body of a double-quoted JSON string, tracking whether the
previous character was an escaping backslash: consume characters up to
the first unescaped closing quote, undoing the escapes, and return the
decoded content together with the unconsumed remainder. -/
def scanQuotedAux : Bool → List Char → Option (List Char × List Char)
  | _, [] => none
  | true, c :: rest => (scanQuotedAux false rest).map (fun p => (c :: p.1, p.2))
  | false, c :: rest =>
    if c = '"' then some ([], rest)
    else if c = '\\' then scanQuotedAux true rest
    else (scanQuotedAux false rest).map (fun p => (c :: p.1, p.2))

/-- Scan the body of a double-quoted JSON string from a non-escaped start. -/
def scanQuoted (l : List Char) : Option (List Char × List Char) :=
  scanQuotedAux false l

/-- Consume an expected literal character sequence from the front of the
input, returning the remainder, or none when the input differs. -/
def expects : List Char → List Char → Option (List Char)
  | [], input => some input
  | _ :: _, [] => none
  | c :: ls, d :: rs => if c = d then expects ls rs else none

@[simp]
theorem expects_append (l r : List Char) : expects l (l ++ r) = some r := by
  induction l with
  | nil => rfl
  | cons c ls ih => simp [expects, ih]

@[simp]
theorem expects_cons_self (c : Char) (r : List Char) : expects [c] (c :: r) = some r := by
  simp [expects]

@[simp]
theorem scanQuoted_escape (s r : List Char) :
    scanQuoted (escapeChars s ++ ('"' :: r)) = some (s, r) := by
  induction s with
  | nil => simp [escapeChars, scanQuoted, scanQuotedAux]
  | cons c cs ih =>
    have ihA : scanQuotedAux false (escapeChars cs ++ ('"' :: r)) = some (cs, r) := ih
    by_cases h : c = '"' ∨ c = '\\'
    · simp [escapeChars, if_pos h, scanQuoted, scanQuotedAux, ihA]
    · have h1 : ¬c = '"' := fun hc => h (Or.inl hc)
      have h2 : ¬c = '\\' := fun hc => h (Or.inr hc)
      simp [escapeChars, if_neg h, scanQuoted, scanQuotedAux, if_neg h1, if_neg h2, ihA]

/-- Decimal digit to its character, via the code point of the zero digit. -/
def digitToChar (d : Nat) : Char := Char.ofNat (48 + d)

/-- Character back to a decimal digit, rejecting non-digit characters. -/
def charToDigit (c : Char) : Option Nat :=
  if 48 ≤ c.toNat ∧ c.toNat ≤ 57 then some (c.toNat - 48) else none

theorem charToDigit_digitToChar (d : Nat) (hd : d < 10) :
    charToDigit (digitToChar d) = some d := by
  interval_cases d <;> rfl

/-- Little-endian decimal digits with explicit fuel, so the function is
structurally recursive and evaluates inside the kernel. -/
def digitsLEAux : Nat → Nat → List Nat
  | _, 0 => []
  | 0, _ + 1 => []
  | fuel + 1, n + 1 => ((n + 1) % 10) :: digitsLEAux fuel ((n + 1) / 10)

/-- Little-endian decimal digits of a natural number. -/
def digitsLE (n : Nat) : List Nat := digitsLEAux n n

theorem digitsLEAux_spec (fuel : Nat) : ∀ n, n ≤ fuel →
    Nat.ofDigits 10 (digitsLEAux fuel n) = n ∧ ∀ d ∈ digitsLEAux fuel n, d < 10 := by
  induction fuel with
  | zero =>
    intro n hn
    interval_cases n
    exact ⟨by simp [digitsLEAux, Nat.ofDigits], by simp [digitsLEAux]⟩
  | succ fuel ih =>
    intro n hn
    match n with
    | 0 => exact ⟨by simp [digitsLEAux, Nat.ofDigits], by simp [digitsLEAux]⟩
    | m + 1 =>
      have hd : (m + 1) / 10 ≤ fuel := by
        have h1 : (m + 1) / 10 ≤ m := by
          have := Nat.div_lt_self (Nat.succ_pos m) (by norm_num : 1 < 10)
          omega
        omega
      obtain ⟨ihv, ihd⟩ := ih ((m + 1) / 10) hd
      constructor
      · show Nat.ofDigits 10 (((m + 1) % 10) :: digitsLEAux fuel ((m + 1) / 10)) = m + 1
        rw [Nat.ofDigits_cons, ihv]
        have := Nat.mod_add_div (m + 1) 10
        omega
      · intro d hd2
        rcases List.mem_cons.mp hd2 with h | h
        · subst h; exact Nat.mod_lt _ (by norm_num)
        · exact ihd d h

theorem ofDigits_digitsLE (n : Nat) : Nat.ofDigits 10 (digitsLE n) = n :=
  (digitsLEAux_spec n n le_rfl).1

theorem digitsLE_lt (n : Nat) : ∀ d ∈ digitsLE n, d < 10 :=
  (digitsLEAux_spec n n le_rfl).2

theorem digitsLE_ne_nil (n : Nat) (h : n ≠ 0) : digitsLE n ≠ [] := by
  match n, h with
  | m + 1, _ =>
    show ((m + 1) % 10) :: digitsLEAux m ((m + 1) / 10) ≠ []
    simp

/-- Big-endian decimal character rendering of a natural number, the model
of how the numeric component of a timestamp prints inside the QR JSON. -/
def natToChars (n : Nat) : List Char :=
  if n = 0 then ['0'] else ((digitsLE n).map digitToChar).reverse

/-- Decode a sequence of decimal digit characters, failing on any
non-digit character. -/
def decodeDigits : List Char → Option (List Nat)
  | [] => some []
  | c :: rest =>
    match charToDigit c, decodeDigits rest with
    | some d, some ds => some (d :: ds)
    | _, _ => none

/-- Parse a big-endian decimal character sequence back to a natural
number; empty input and non-digit characters are rejected. -/
def parseNatChars (l : List Char) : Option Nat :=
  match l with
  | [] => none
  | _ :: _ => (decodeDigits l.reverse).map (Nat.ofDigits 10)

theorem decodeDigits_map (ds : List Nat) (h : ∀ d ∈ ds, d < 10) :
    decodeDigits (ds.map digitToChar) = some ds := by
  induction ds with
  | nil => rfl
  | cons d rest ih =>
    have hd : d < 10 := h d (by simp)
    have hrest : ∀ x ∈ rest, x < 10 := fun x hx => h x (by simp [hx])
    simp [decodeDigits, charToDigit_digitToChar d hd, ih hrest]

@[simp]
theorem parseNatChars_natToChars (n : Nat) : parseNatChars (natToChars n) = some n := by
  by_cases h0 : n = 0
  · subst h0; rfl
  · have hne : digitsLE n ≠ [] := digitsLE_ne_nil n h0
    have hlt : ∀ d ∈ digitsLE n, d < 10 := digitsLE_lt n
    have hmap : ((digitsLE n).map digitToChar).reverse ≠ [] := by
      simpa using hne
    unfold natToChars parseNatChars
    rw [if_neg h0]
    rcases hcase : ((digitsLE n).map digitToChar).reverse with _ | ⟨c, cs⟩
    · exact absurd hcase hmap
    · have hrev : (c :: cs).reverse = (digitsLE n).map digitToChar := by
        rw [← hcase, List.reverse_reverse]
      simp [hrev, decodeDigits_map _ hlt, ofDigits_digitsLE]

/-- The QR payload snapshot built at check-in time: the object literal
qrData in the source, with the checkin field holding the application
clock reading taken when the object is built. -/
structure QrPayload where
  id : String
  name : String
  mobile : String
  host : String
  purpose : String
  checkin : Nat
  status : String
  deriving Repr, DecidableEq

/-- Characters of a JSON object key followed by a colon and the opening
quote of its string value. -/
def jsonKey (k : String) : List Char :=
  '"' :: k.data ++ ('"' :: ':' :: '"' :: [])

/-- One serialized key/value member, continued by the given remainder. -/
def jsonFieldChars (k : String) (v : List Char) (rest : List Char) : List Char :=
  jsonKey k ++ (escapeChars v ++ ('"' :: rest))

/-- Model of JSON.stringify(qrData): the deterministic serialization of
the QR payload, fields in the order they appear in the source object
literal, with the checkin timestamp rendered in decimal. -/
def serializeQr (p : QrPayload) : String :=
  String.mk (lbrace ::
    jsonFieldChars ("id") p.id.data (',' ::
    jsonFieldChars ("name") p.name.data (',' ::
    jsonFieldChars ("mobile") p.mobile.data (',' ::
    jsonFieldChars ("host") p.host.data (',' ::
    jsonFieldChars ("purpose") p.purpose.data (',' ::
    jsonFieldChars ("checkin") (natToChars p.checkin) (',' ::
    jsonFieldChars ("status") p.status.data [rbrace])))))))

/-- Parse one expected key and its quoted string value, returning the
decoded value characters and the unconsumed remainder. -/
def parseField (k : String) (input : List Char) : Option (List Char × List Char) :=
  match expects (jsonKey k) input with
  | none => none
  | some r => scanQuoted r

@[simp]
theorem parseField_fieldChars (k : String) (v rest : List Char) :
    parseField k (jsonFieldChars k v rest) = some (v, rest) := by
  simp [parseField, jsonFieldChars]

/-- Model of JSON.parse applied to a serialized QR payload: recover the
seven fields, or fail on any malformed input. -/
def parseQr (s : String) : Option QrPayload := do
  let r0 ← expects [lbrace] s.data
  let (idC, r1) ← parseField ("id") r0
  let r1b ← expects [','] r1
  let (nameC, r2) ← parseField ("name") r1b
  let r2b ← expects [','] r2
  let (mobC, r3) ← parseField ("mobile") r2b
  let r3b ← expects [','] r3
  let (hostC, r4) ← parseField ("host") r3b
  let r4b ← expects [','] r4
  let (purC, r5) ← parseField ("purpose") r4b
  let r5b ← expects [','] r5
  let (chkC, r6) ← parseField ("checkin") r5b
  let r6b ← expects [','] r6
  let (stC, r7) ← parseField ("status") r6b
  let r8 ← expects [rbrace] r7
  match r8, parseNatChars chkC with
  | [], some t =>
    some (QrPayload.mk (String.mk idC) (String.mk nameC) (String.mk mobC)
      (String.mk hostC) (String.mk purC) t (String.mk stC))
  | _, _ => none

theorem parseQr_serializeQr (p : QrPayload) : parseQr (serializeQr p) = some p := by
  simp [parseQr, serializeQr, Option.bind]

/-! Data model: the vs_visitors and vs_users rows, and the store with its
identity counter.  A timestamp is a Nat-valued clock reading. -/

/-- One row of the vs_visitors table. -/
structure Visitor where
  id : Nat
  visitor_name : String
  mobile : Option String
  host_employee : Option String
  host_email : String
  purpose : String
  photo_base64 : Option String
  qr_code_data : String
  checkin_time : Nat
  checkout_time : Option Nat
  status : String
  created_by : String
  updated_at : Option Nat
  deriving Repr, DecidableEq

/-- The visitor ledger: the stored rows plus the next identity value the
store will assign. -/
structure Store where
  visitors : List Visitor
  nextId : Nat
  deriving Repr, DecidableEq

/-- One row of the vs_users table. -/
structure UserRow where
  id : Nat
  username : String
  email : String
  password : String
  role : String
  is_active : Bool
  deriving Repr, DecidableEq

/-- Model of the JavaScript x-or-else idiom (value or fallback) on an
optional string: an absent or empty string is falsy and yields the
fallback. -/
def jsOrElse (newv : Option String) (old : String) : String :=
  match newv with
  | none => old
  | some s => if s = "" then old else s

/-- Model of storing a JavaScript value with an or-null guard: an absent
or empty string is stored as NULL. -/
def orNull (m : Option String) : Option String :=
  match m with
  | none => none
  | some s => if s = "" then none else some s

/-- Truthiness of an optional string request field. -/
def presentStr : Option String → Bool
  | none => false
  | some s => s != ""

/-! Login.  The bcrypt comparison primitive is passed in as a Boolean
function cmp (password, storedHash); each model returns the outcome plus
the list of (password, hash) pairs it handed to bcrypt, in order, making
the number and the targets of hash comparisons observable. -/

/-- Outcome of a login attempt, as the HTTP layer reports it. -/
inductive LoginOutcome where
  | missingCredentials
  | invalidCredentials
  | accountDisabled
  | loggedIn (id : Nat) (username : String) (email : String) (role : String)
  deriving Repr, DecidableEq

/-- The fixed bogus hash the source compares against when no account
matches, to keep the failure path doing one bcrypt comparison. -/
def dummyHash : String := "$2b$10$dummyhashforpreventingtimingattacks"

/-- Model of POST /api/login in src/server8.js: look up by username or
email; on no match compare against the dummy hash and fail with
INVALID_CREDENTIALS; if the account is inactive fail with
ACCOUNT_DISABLED before any comparison; otherwise one comparison against
the stored hash decides success. -/
def server8_login (cmp : String → String → Bool) (users : List UserRow)
    (username password : String) : LoginOutcome × List (String × String) :=
  if username = "" ∨ password = "" then (.missingCredentials, [])
  else
    match users.find? (fun u => u.username == username || u.email == username) with
    | none => (.invalidCredentials, [(password, dummyHash)])
    | some u =>
      if u.is_active = false then (.accountDisabled, [])
      else if cmp password u.password then
        (.loggedIn u.id u.username u.email u.role, [(password, u.password)])
      else (.invalidCredentials, [(password, u.password)])

/-- Model of POST /api/login in the first variant of src/server1.js: look
up by username or email; on no match return INVALID_CREDENTIALS with no
bcrypt comparison at all; there is no is_active check. -/
def server1_login (cmp : String → String → Bool) (users : List UserRow)
    (username password : String) : LoginOutcome × List (String × String) :=
  match users.find? (fun u => u.username == username || u.email == username) with
  | none => (.invalidCredentials, [])
  | some u =>
    if cmp password u.password then
      (.loggedIn u.id u.username u.email u.role, [(password, u.password)])
    else (.invalidCredentials, [(password, u.password)])

/-- Model of POST /api/login in src/unnamed/part_000: the SQL lookup
itself carries AND is_active = 1, so an inactive account falls into the
no-match branch (dummy comparison, INVALID_CREDENTIALS); there is no
ACCOUNT_DISABLED response in this variant. -/
def part000_login (cmp : String → String → Bool) (users : List UserRow)
    (username password : String) : LoginOutcome × List (String × String) :=
  if username = "" ∨ password = "" then (.missingCredentials, [])
  else
    match users.find? (fun u => (u.username == username || u.email == username) && u.is_active) with
    | none => (.invalidCredentials, [(password, dummyHash)])
    | some u =>
      if cmp password u.password then
        (.loggedIn u.id u.username u.email u.role, [(password, u.password)])
      else (.invalidCredentials, [(password, u.password)])

/-! Create visitor. -/

/-- The client-supplied body of POST /api/visitors.  Note there is no id
field and no checkin-time field: the client cannot supply either. -/
structure VisitorInput where
  visitor_name : String
  mobile : Option String
  host_employee : Option String
  host_email : String
  purpose : String
  photo_base64 : Option String
  deriving Repr, DecidableEq

/-- Split a character list at the first occurrence of the given
character, returning the parts before and after it. -/
def breakAt (c : Char) : List Char → Option (List Char × List Char)
  | [] => none
  | d :: rest =>
    if d = c then some ([], rest)
    else (breakAt c rest).map (fun p => (d :: p.1, p.2))

/-- True when the list has a dot at some position that is neither the
first nor the last, so a split into two nonempty halves exists. -/
def hasInternalDot (l : List Char) : Bool :=
  match l with
  | [] => false
  | _ :: rest => (rest.dropLast).contains '.'

/-- Model of the host-email shape test, the regex matching a nonempty
local part without whitespace, an at sign, then a domain without
whitespace or at signs that splits at some dot into two nonempty
halves. -/
def emailShape (s : String) : Bool :=
  match breakAt '@' s.data with
  | none => false
  | some (localPart, domainPart) =>
    !localPart.isEmpty && localPart.all (fun c => !c.isWhitespace) &&
    !domainPart.isEmpty && domainPart.all (fun c => !c.isWhitespace && c != '@') &&
    hasInternalDot domainPart

/-- Model of the part_000 mobile-number regex: exactly ten characters,
each a decimal digit. -/
def tenDigitMobile (m : String) : Bool :=
  m.data.length == 10 && m.data.all (fun c => c.isDigit)

/-- Outcome of a create-visitor request, as the HTTP layer reports it.
The created constructor carries the response fields: the store-assigned
row id, the QR pass id echoed as visitor.visitorId, the visitor name and
the store-assigned checkin time echoed as visitor.checkinTime. -/
inductive CreateOutcome where
  | missingFields
  | invalidEmail
  | invalidMobile
  | created (id : Nat) (qrId : String) (visitorName : String) (checkinTime : Nat)
  | createdNoTime (id : Nat) (qrId : String)
  | serverFailure
  deriving Repr, DecidableEq

/-- The qrData object literal the create handlers build: the QR pass id,
the input fields with empty-string fallbacks, the application clock
reading taken when the object is built, and the fixed initial status. -/
def mkQrPayload (inp : VisitorInput) (qrId : String) (appNow : Nat) : QrPayload :=
  QrPayload.mk qrId inp.visitor_name (inp.mobile.getD "") (inp.host_employee.getD "")
    inp.purpose appNow ("checked_in")

/-- Model of POST /api/visitors in src/server8.js: validate required
fields and the email shape (there is no mobile check in this variant),
build the qrData snapshot with the application clock, insert the row
whose status and checkin_time come from the table defaults, and return
the OUTPUT id and checkin_time.  The notification mail is fire-and
forget: the buildOk and sendOk outcomes never reach the response or the
store, which is exactly what the returned pair shows. -/
def server8_createVisitor (inp : VisitorInput) (creator : Option String) (s : Store)
    (qrId : String) (appNow dbNow : Nat) (_buildOk _sendOk : Bool) : Store × CreateOutcome :=
  if inp.visitor_name = "" ∨ inp.host_email = "" ∨ inp.purpose = "" then (s, .missingFields)
  else if !(emailShape inp.host_email) then (s, .invalidEmail)
  else
    let qr := mkQrPayload inp qrId appNow
    let row : Visitor :=
      { id := s.nextId, visitor_name := inp.visitor_name, mobile := orNull inp.mobile,
        host_employee := orNull inp.host_employee, host_email := inp.host_email,
        purpose := inp.purpose, photo_base64 := orNull inp.photo_base64,
        qr_code_data := serializeQr qr, checkin_time := dbNow, checkout_time := none,
        status := "checked_in", created_by := jsOrElse creator ("system"), updated_at := none }
    ({ visitors := s.visitors ++ [row], nextId := s.nextId + 1 },
      .created s.nextId qrId inp.visitor_name dbNow)

/-- Model of POST /api/visitors in the first variant of src/server1.js:
no input validation at all, the row is inserted, and then the mail send
is awaited inside the try block, so a send rejection turns the response
into the 500 handler even though the insert is not rolled back.  The
success response carries only the new id and the QR pass id. -/
def server1_createVisitor (inp : VisitorInput) (creatorUsername : String) (s : Store)
    (qrId : String) (appNow dbNow : Nat) (sendOk : Bool) : Store × CreateOutcome :=
  let qr := QrPayload.mk qrId inp.visitor_name (inp.mobile.getD "")
    (inp.host_employee.getD "") (inp.purpose) appNow ("checked_in")
  let row : Visitor :=
    { id := s.nextId, visitor_name := inp.visitor_name, mobile := inp.mobile,
      host_employee := inp.host_employee, host_email := inp.host_email,
      purpose := inp.purpose, photo_base64 := inp.photo_base64,
      qr_code_data := serializeQr qr, checkin_time := dbNow, checkout_time := none,
      status := "checked_in", created_by := creatorUsername, updated_at := none }
  let s2 : Store := { visitors := s.visitors ++ [row], nextId := s.nextId + 1 }
  if sendOk then (s2, .createdNoTime s.nextId qrId) else (s2, .serverFailure)

/-- Model of POST /api/visitors in src/unnamed/part_000: required-field,
email-shape and ten-digit mobile validation, a transactional insert
committed before the mail block, then a fire-and-forget mail send whose
outcome never reaches the response or the store. -/
def part000_createVisitor (inp : VisitorInput) (creator : Option String) (s : Store)
    (qrId : String) (appNow dbNow : Nat) (_buildOk _sendOk : Bool) : Store × CreateOutcome :=
  if inp.visitor_name = "" ∨ inp.host_email = "" ∨ inp.purpose = "" then (s, .missingFields)
  else if !(emailShape inp.host_email) then (s, .invalidEmail)
  else if presentStr inp.mobile && !(tenDigitMobile (inp.mobile.getD "")) then (s, .invalidMobile)
  else
    let qr := mkQrPayload inp qrId appNow
    let row : Visitor :=
      { id := s.nextId, visitor_name := inp.visitor_name, mobile := orNull inp.mobile,
        host_employee := orNull inp.host_employee, host_email := inp.host_email,
        purpose := inp.purpose, photo_base64 := orNull inp.photo_base64,
        qr_code_data := serializeQr qr, checkin_time := dbNow, checkout_time := none,
        status := "checked_in", created_by := jsOrElse creator ("system"),
        updated_at := some dbNow }
    ({ visitors := s.visitors ++ [row], nextId := s.nextId + 1 },
      .created s.nextId qrId inp.visitor_name dbNow)

/-! Check-out. -/

/-- Outcome of a checkout request.  The checkedOut constructor carries
the checkoutTime field of the response body when the variant sends one
(server8 and part_000 send a fresh application-clock reading; server1
sends none). -/
inductive CheckoutOutcome where
  | notFound
  | alreadyCheckedOut
  | checkedOut (checkoutTime : Option Nat)
  deriving Repr, DecidableEq

/-- The WHERE condition of the conditional checkout UPDATE: the id
matches and the status is currently checked_in. -/
def checkoutHit (vid : Nat) (v : Visitor) : Bool :=
  v.id == vid && v.status == "checked_in"

/-- The SET clause of the conditional checkout UPDATE, applied to one
row when the WHERE condition holds on it. -/
def checkoutRowUpdate (vid : Nat) (t : Nat) (v : Visitor) : Visitor :=
  if checkoutHit vid v then { v with status := "checked_out", checkout_time := some t } else v

/-- The single conditional UPDATE statement of server8 and part_000:
set checkout_time to the store clock and status to checked_out on every
row whose id matches and whose status is currently checked_in, and
report the number of rows affected.  The WHERE condition is evaluated
atomically with the write, which is what makes the statement a
compare-and-swap. -/
def condCheckoutUpdate (s : Store) (vid : Nat) (dbNow : Nat) : Store × Nat :=
  ({ s with visitors := s.visitors.map (checkoutRowUpdate vid dbNow) },
    (s.visitors.filter (checkoutHit vid)).length)

/-- Model of PUT /api/visitors/:id/checkout in src/server8.js: select the
row (404 when absent, 400 when already checked out), run the conditional
update (404 when it affects no row), then answer success with a fresh
application-clock reading as checkoutTime; the optional checkout mail is
fire-and-forget. -/
def server8_checkout (s : Store) (vid : Nat) (dbNow appNow : Nat) : Store × CheckoutOutcome :=
  match s.visitors.find? (fun v => v.id == vid) with
  | none => (s, .notFound)
  | some v =>
    if v.status = "checked_out" then (s, .alreadyCheckedOut)
    else if (s.visitors.filter (checkoutHit vid)).length = 0 then
      ((condCheckoutUpdate s vid dbNow).1, .notFound)
    else ((condCheckoutUpdate s vid dbNow).1, .checkedOut (some appNow))

/-- Model of PUT /api/visitors/:id/checkout in the first variant of
src/server1.js: a single unconditional UPDATE on the id alone — no
status condition — answering success whenever the id exists, with no
checkoutTime in the response. -/
def server1_checkout (s : Store) (vid : Nat) (dbNow : Nat) : Store × CheckoutOutcome :=
  let hit := fun (v : Visitor) => v.id == vid
  let s2 : Store := { s with visitors := s.visitors.map (fun v =>
      if hit v then { v with status := "checked_out", checkout_time := some dbNow } else v) }
  if 0 < (s.visitors.filter hit).length then (s2, .checkedOut none) else (s2, .notFound)

/-- Model of PUT /api/visitors/:id/checkout in src/unnamed/part_000: as
in server8 but inside a transaction (rolled back on every failure path,
so a failed request leaves the store as it was) and also stamping
updated_at in the conditional update. -/
def part000_checkout (s : Store) (vid : Nat) (dbNow appNow : Nat) : Store × CheckoutOutcome :=
  match s.visitors.find? (fun v => v.id == vid) with
  | none => (s, .notFound)
  | some v =>
    if v.status = "checked_out" then (s, .alreadyCheckedOut)
    else
      let hit := fun (w : Visitor) => w.id == vid && w.status == "checked_in"
      let affected := (s.visitors.filter hit).length
      if affected = 0 then (s, .notFound)
      else
        ({ s with visitors := s.visitors.map (fun w =>
            if hit w then
              { w with
                status := "checked_out"
                checkout_time := some dbNow
                updated_at := some dbNow }
            else w) },
          .checkedOut (some appNow))

/-! The part_000 update endpoint. -/

/-- The client-supplied body of PUT /api/visitors/:id in part_000. -/
structure UpdateInput where
  visitor_name : Option String
  mobile : Option String
  host_employee : Option String
  host_email : Option String
  purpose : Option String
  deriving Repr, DecidableEq

/-- Model of the JavaScript or idiom on a nullable stored column. -/
def jsOrElseOpt (newv : Option String) (old : Option String) : Option String :=
  match newv with
  | none => old
  | some s => if s = "" then old else some s

/-- Outcome of an update-visitor request. -/
inductive UpdateOutcome where
  | notFound
  | updated (visitorId : Nat)
  deriving Repr, DecidableEq

/-- Model of PUT /api/visitors/:id in src/unnamed/part_000: select the
old row (404 when absent), then UPDATE the five identity fields to the
supplied value or the old one, stamping updated_at; status,
checkout_time, checkin_time, qr_code_data, photo and created_by are not
touched, and no row is removed. -/
def part000_updateVisitor (s : Store) (vid : Nat) (inp : UpdateInput) (dbNow : Nat) :
    Store × UpdateOutcome :=
  match s.visitors.find? (fun v => v.id == vid) with
  | none => (s, .notFound)
  | some old =>
    let newName := jsOrElse inp.visitor_name old.visitor_name
    let newMobile := jsOrElseOpt inp.mobile old.mobile
    let newHost := jsOrElseOpt inp.host_employee old.host_employee
    let newEmail := jsOrElse inp.host_email old.host_email
    let newPurpose := jsOrElse inp.purpose old.purpose
    ({ s with visitors := s.visitors.map (fun v =>
        if v.id == vid then
          { v with
            visitor_name := newName
            mobile := newMobile
            host_employee := newHost
            host_email := newEmail
            purpose := newPurpose
            updated_at := some dbNow }
        else v) },
      .updated vid)

/-! Listing. -/

/-- Day-granularity projection of a timestamp, the model of casting a
datetime to a date. -/
def dateOf (t : Nat) : Nat := t / 1440

/-- Substring containment over character lists. -/
def charsContain (needle hay : List Char) : Bool :=
  hay.tails.any (fun t => needle.isPrefixOf t)

/-- Case-insensitive substring match, the model of a LIKE test with
percent wildcards around the pattern under the default collation. -/
def likeContains (needle hay : String) : Bool :=
  charsContain (needle.data.map Char.toLower) (hay.data.map Char.toLower)

/-- LIKE on a nullable column: NULL matches nothing. -/
def likeOpt (needle : String) (hay : Option String) : Bool :=
  match hay with
  | none => false
  | some h => likeContains needle h

/-- Apply an optional string filter the way the handlers do: a filter
that is absent or empty (falsy) is not added to the query. -/
def strFilter (f : Option String) (test : String → Bool) : Bool :=
  match f with
  | none => true
  | some s => if s = "" then true else test s

/-- The row predicate built by GET /api/visitors in src/server8.js from
the date, status, host_email and search query parameters. -/
def server8_matches (date : Option Nat) (status host_email search : Option String)
    (v : Visitor) : Bool :=
  (match date with | none => true | some d => dateOf v.checkin_time == d) &&
  strFilter status (fun st => v.status == st) &&
  strFilter host_email (fun he => v.host_email == he) &&
  strFilter search (fun q =>
    likeContains q v.visitor_name || likeOpt q v.mobile || likeOpt q v.host_employee)

/-- The row predicate built by GET /api/visitors in src/unnamed/part_000:
as in server8 plus a host_employee LIKE filter, and the search spans
name, mobile, host_employee, host_email and purpose. -/
def part000_matches (date : Option Nat) (status host_email host_employee search : Option String)
    (v : Visitor) : Bool :=
  (match date with | none => true | some d => dateOf v.checkin_time == d) &&
  strFilter status (fun st => v.status == st) &&
  strFilter host_email (fun he => v.host_email == he) &&
  strFilter host_employee (fun hm => likeOpt hm v.host_employee) &&
  strFilter search (fun q =>
    likeContains q v.visitor_name || likeOpt q v.mobile || likeOpt q v.host_employee ||
    likeContains q v.host_email || likeContains q v.purpose)

/-- Outcome of a list request: the page of rows plus the pagination
object fields, or the 500 handler. -/
inductive ListOutcome where
  | listed (visitors : List Visitor) (page limit total pages : Nat)
  | listFailure
  deriving Repr, DecidableEq

/-- Pages as Math.ceil of total over limit. -/
def pagesOf (total limit : Nat) : Nat := (total + limit - 1) / limit

/-- Reading the total_count column off a row of the count query that
src/server8.js actually runs: the string replace building the COUNT
query searches for the column list as one single-spaced line, which does
not occur in the multi-line SQL text, so the count query is the
unmodified row query and its rows have no total_count column — the read
yields undefined. -/
def totalCountField (_v : Visitor) : Option Nat := none

/-- The column-list text that the count-query replace searches for. -/
def server8_listSelectNeedle : String :=
  "SELECT id, visitor_name, mobile, host_employee, host_email, purpose, checkin_time, checkout_time, status, created_by"

/-- The opening of the visitors query as the template literal spells it,
with its line breaks and indentation. -/
def server8_listQueryHead : String :=
  "\n      SELECT \n        id, visitor_name, mobile, host_employee, host_email, purpose,\n        checkin_time, checkout_time, status, created_by\n      FROM vs_visitors\n      WHERE 1=1\n    "

/-- Insert a row into a sorted list of rows, keeping earlier rows first
among ties, so the overall sort is stable and deterministic. -/
def insertLe (le : Visitor → Visitor → Bool) (x : Visitor) : List Visitor → List Visitor
  | [] => [x]
  | y :: ys => if le x y then x :: y :: ys else y :: insertLe le x ys

/-- Stable insertion sort over visitor rows, the model of a
deterministic ORDER BY. -/
def sortLe (le : Visitor → Visitor → Bool) : List Visitor → List Visitor
  | [] => []
  | x :: xs => insertLe le x (sortLe le xs)

/-- Sorting for GET /api/visitors in src/server8.js: checkin_time
descending, the only order this variant offers. -/
def sortByCheckinDesc (l : List Visitor) : List Visitor :=
  sortLe (fun a b => Nat.ble b.checkin_time a.checkin_time) l

/-- Model of GET /api/visitors in src/server8.js: filter, then read
recordset 0 total_count from the un-replaced count query — a throw into
the 500 handler when no row matches, undefined coerced to 0 by the
or-zero guard otherwise — then order by checkin_time descending and
window by offset and fetch. -/
def server8_list (s : Store) (date : Option Nat) (status host_email search : Option String)
    (page limit : Nat) : ListOutcome :=
  let matched := s.visitors.filter (server8_matches date status host_email search)
  match matched with
  | [] => .listFailure
  | v :: _ =>
    let total := (totalCountField v).getD 0
    let sorted := sortByCheckinDesc matched
    let windowRows := (sorted.drop ((page - 1) * limit)).take limit
    .listed windowRows page limit total (pagesOf total limit)

/-- The sort columns GET /api/visitors in part_000 allows. -/
def validSortColumns : List String :=
  ["checkin_time", "checkout_time", "visitor_name", "host_employee", "host_email", "status"]

/-- Column comparison for the part_000 ORDER BY. -/
def colLe (col : String) (a b : Visitor) : Bool :=
  if col == "visitor_name" then decide (a.visitor_name ≤ b.visitor_name)
  else if col == "host_employee" then decide ((a.host_employee.getD "") ≤ (b.host_employee.getD ""))
  else if col == "host_email" then decide (a.host_email ≤ b.host_email)
  else if col == "status" then decide (a.status ≤ b.status)
  else if col == "checkout_time" then Nat.ble (a.checkout_time.getD 0) (b.checkout_time.getD 0)
  else Nat.ble a.checkin_time b.checkin_time

/-- Model of GET /api/visitors in src/unnamed/part_000: clamp page and
limit, fall back to checkin_time for a sort column outside the
allow-list, filter, order, window by offset and fetch, and take total
from the window count column of the first returned row — zero when the
window is empty. -/
def part000_list (s : Store) (date : Option Nat)
    (status host_email host_employee search : Option String)
    (page limit : Nat) (sortBy : String) (sortAsc : Bool) : ListOutcome :=
  let pageNum := max 1 page
  let limitNum := min 100 (max 1 limit)
  let sortColumn := if validSortColumns.contains sortBy then sortBy else "checkin_time"
  let matched := s.visitors.filter (part000_matches date status host_email host_employee search)
  let sorted := sortLe (fun a b =>
    if sortAsc then colLe sortColumn a b else colLe sortColumn b a) matched
  let windowRows := (sorted.drop ((pageNum - 1) * limitNum)).take limitNum
  let total := match windowRows with | [] => 0 | _ :: _ => matched.length
  .listed windowRows pageNum limitNum total (pagesOf total limitNum)

/-! Helper lemmas about the conditional checkout update. -/

theorem server8_checkout_find_none (s : Store) (vid t a : Nat)
    (hf : s.visitors.find? (fun w => w.id == vid) = none) :
    server8_checkout s vid t a = (s, .notFound) := by
  unfold server8_checkout
  rw [hf]

theorem server8_checkout_find_some (s : Store) (vid t a : Nat) (v : Visitor)
    (hf : s.visitors.find? (fun w => w.id == vid) = some v) :
    server8_checkout s vid t a =
      (if v.status = "checked_out" then (s, .alreadyCheckedOut)
       else if (s.visitors.filter (checkoutHit vid)).length = 0 then
         ((condCheckoutUpdate s vid t).1, .notFound)
       else ((condCheckoutUpdate s vid t).1, .checkedOut (some a))) := by
  unfold server8_checkout
  rw [hf]

/-- Success-path characterization of the server8 checkout handler: a
checkedOut outcome means the pre-check found a row that was not already
checked out, the new store is the updated one and the response time is
the application clock reading. -/
theorem server8_checkout_success (s : Store) (vid t a : Nat) (ct : Option Nat)
    (h : (server8_checkout s vid t a).2 = .checkedOut ct) :
    (server8_checkout s vid t a).1 = (condCheckoutUpdate s vid t).1 ∧
    ct = some a ∧
    ∃ v, s.visitors.find? (fun w => w.id == vid) = some v ∧ v.status ≠ "checked_out" := by
  rcases hf : s.visitors.find? (fun w => w.id == vid) with _ | v
  · rw [server8_checkout_find_none s vid t a hf] at h
    simp at h
  · rw [server8_checkout_find_some s vid t a v hf] at h ⊢
    by_cases hst : v.status = "checked_out"
    · rw [if_pos hst] at h; simp at h
    · rw [if_neg hst] at h ⊢
      by_cases haff : (s.visitors.filter (checkoutHit vid)).length = 0
      · rw [if_pos haff] at h; simp at h
      · rw [if_neg haff] at h ⊢
        refine ⟨rfl, ?_, v, hf, hst⟩
        simpa using h.symm

/-! Concrete fixtures used by witnesses and counterexamples. -/

/-- A visitor row in the checked_in state. -/
def exVisitorIn : Visitor :=
  { id := 1, visitor_name := "Jane Doe", mobile := none, host_employee := none,
    host_email := "host@x.com", purpose := "Meeting", photo_base64 := none,
    qr_code_data := "", checkin_time := 3, checkout_time := none,
    status := "checked_in", created_by := "system", updated_at := none }

/-- A store holding one checked-in visitor. -/
def exStoreIn : Store := { visitors := [exVisitorIn], nextId := 2 }

/-- An empty store whose next identity value is 1. -/
def exEmptyStore : Store := { visitors := [], nextId := 1 }

/-- A valid create-visitor body. -/
def exInput : VisitorInput :=
  { visitor_name := "Jane Doe", mobile := none, host_employee := none,
    host_email := "host@x.com", purpose := "Meeting", photo_base64 := none }

/-! C1.  The claim reads every checkout handler as a conditional update,
so that at most one CheckOut per id ever succeeds and checkout_time is
never overwritten.  That holds for server8 (and part_000), but the
server1 handler cited by the claim updates on the id alone, so a second
CheckOut on an already-checked-out id succeeds again and overwrites the
stored checkout_time. -/

/-- C2 counterexample: in server1 the mail send is awaited, so on a send
rejection the same valid check-in yields the 500 handler instead of the
success response, even though the row was inserted; with the send
succeeding the response is the success one — the HTTP response depends
on the mail outcome, contradicting the claim as stated. -/
theorem c2_server1_mail_changes_response :
    (server1_createVisitor exInput ("alice") exEmptyStore ("VIS-1") 10 11 false).2 =
      .serverFailure ∧
    (server1_createVisitor exInput ("alice") exEmptyStore ("VIS-1") 10 11 true).2 =
      .createdNoTime 1 ("VIS-1") ∧
    (server1_createVisitor exInput ("alice") exEmptyStore ("VIS-1") 10 11 false).1.visitors.length = 1 := by
  decide

/-- C2 (amended): in server8 and part_000 the create response and the
persisted store are identical whatever the mail build and send outcomes
are — the notification is fully detached — while in server1 only the
persisted store is independent of the send outcome; the response is not
(see the counterexample). -/
theorem c2_mail_isolation_amended :
    (∀ (inp : VisitorInput) (creator : Option String) (s : Store) (qrId : String)
        (appNow dbNow : Nat) (b1 k1 b2 k2 : Bool),
      server8_createVisitor inp creator s qrId appNow dbNow b1 k1 =
        server8_createVisitor inp creator s qrId appNow dbNow b2 k2) ∧
    (∀ (inp : VisitorInput) (creator : Option String) (s : Store) (qrId : String)
        (appNow dbNow : Nat) (b1 k1 b2 k2 : Bool),
      part000_createVisitor inp creator s qrId appNow dbNow b1 k1 =
        part000_createVisitor inp creator s qrId appNow dbNow b2 k2) ∧
    (∀ (inp : VisitorInput) (cu : String) (s : Store) (qrId : String) (appNow dbNow : Nat),
      (server1_createVisitor inp cu s qrId appNow dbNow false).1 =
        (server1_createVisitor inp cu s qrId appNow dbNow true).1) :=
  ⟨fun _ _ _ _ _ _ _ _ _ _ => rfl, fun _ _ _ _ _ _ _ _ _ _ => rfl,
    fun _ _ _ _ _ _ => rfl⟩

/-! C3.  The QR round-trip.  Parsing the stored payload reproduces the
snapshot exactly — the QR pass id (echoed to the caller as
visitor.visitorId) and the name round-trip — but the checkin field it
reproduces is the application-clock reading taken when the snapshot was
built, not the store-assigned checkin_time that the response returns as
visitor.checkinTime; the two are independent clock readings. -/

/-- Parse the QR payload stored on the most recently inserted row. -/
def parsedLastQr (s : Store) : Option (Option QrPayload) :=
  s.visitors.getLast?.map (fun row => parseQr row.qr_code_data)

/-- C3 counterexample: with the application clock at 10 when the
snapshot is built and the store clock at 11 at insert, the response
returns checkinTime 11 while the stored payload parses back with
checkin 10 — the parsed check-in timestamp is not the one returned to
the caller, contradicting the claim as stated. -/
theorem c3_qr_checkin_differs_from_response :
    (server8_createVisitor exInput none exEmptyStore ("VIS-1") 10 11 true true).2 =
      .created 1 ("VIS-1") ("Jane Doe") 11 ∧
    parsedLastQr (server8_createVisitor exInput none exEmptyStore ("VIS-1") 10 11 true true).1 =
      some (some (QrPayload.mk ("VIS-1") ("Jane Doe") ("") ("") ("Meeting") 10 ("checked_in"))) ∧
    (10 : Nat) ≠ 11 := by
  decide

/-- C3 (amended): for every valid input, parsing the qr_code_data stored
at creation reproduces the built snapshot exactly: its id is the QR pass
id echoed in the response as visitor.visitorId, its name is the supplied
name, and its checkin is the application-clock reading taken at creation
— a reading independent of the store-assigned checkin_time that the
response returns as visitor.checkinTime. -/
theorem c3_qr_roundtrip_amended (inp : VisitorInput) (creator : Option String) (s : Store)
    (qrId : String) (appNow dbNow : Nat) (b k : Bool)
    (h1 : ¬(inp.visitor_name = "" ∨ inp.host_email = "" ∨ inp.purpose = ""))
    (h2 : emailShape inp.host_email = true) :
    (server8_createVisitor inp creator s qrId appNow dbNow b k).2 =
      .created s.nextId qrId inp.visitor_name dbNow ∧
    parsedLastQr (server8_createVisitor inp creator s qrId appNow dbNow b k).1 =
      some (some (mkQrPayload inp qrId appNow)) ∧
    (mkQrPayload inp qrId appNow).id = qrId ∧
    (mkQrPayload inp qrId appNow).name = inp.visitor_name ∧
    (mkQrPayload inp qrId appNow).checkin = appNow := by
  unfold server8_createVisitor
  rw [if_neg h1, if_neg (by simp [h2])]
  refine ⟨rfl, ?_, rfl, rfl, rfl⟩
  simp [parsedLastQr, List.getLast?_concat, parseQr_serializeQr]

/-- C3 witness: the amended theorem at the valid example input with
application clock 21 and store clock 22. -/
theorem c3_qr_roundtrip_amended_witness :
    (server8_createVisitor exInput none exEmptyStore ("VIS-qr") 21 22 true true).2 =
      .created 1 ("VIS-qr") ("Jane Doe") 22 ∧
    parsedLastQr (server8_createVisitor exInput none exEmptyStore ("VIS-qr") 21 22 true true).1 =
      some (some (mkQrPayload exInput ("VIS-qr") 21)) ∧
    (mkQrPayload exInput ("VIS-qr") 21).id = ("VIS-qr") ∧
    (mkQrPayload exInput ("VIS-qr") 21).name = exInput.visitor_name ∧
    (mkQrPayload exInput ("VIS-qr") 21).checkin = 21 :=
  c3_qr_roundtrip_amended exInput none exEmptyStore ("VIS-qr") 21 22 true true
    (by decide) (by decide)

/-! Login fixtures. -/

/-- An active administrator account; the stored value is the hash of the
password secret under the toy hash used by the example comparator. -/
def exAdmin : UserRow :=
  { id := 1, username := "admin", email := "admin@x.com", password := "Hsecret",
    role := "admin", is_active := true }

/-- An inactive reception account. -/
def exInactive : UserRow :=
  { id := 2, username := "alice", email := "alice@x.com", password := "Hpw",
    role := "reception", is_active := false }

/-- The two example accounts. -/
def exUsers : List UserRow := [exAdmin, exInactive]

/-- A concrete stand-in for the bcrypt comparison: the hash of p is the
letter H followed by p. -/
def exCmp : String → String → Bool := fun p h => h == ("H" ++ p)

/-! C4.  The one-comparison failure path.  server8 does compare against
the dummy hash when no account matches, but the server1 handler cited by
the claim returns InvalidCredentials for an unknown username without any
bcrypt call, so the claim as stated (every failure path performs exactly
one comparison) fails on server1. -/

/-- C4 counterexample: in server1, a login for a username that matches
no account returns InvalidCredentials with an empty comparison list —
zero password-hash comparisons, not exactly one. -/
theorem c4_server1_no_dummy_compare :
    server1_login exCmp [] ("nope") ("wrong") = (.invalidCredentials, []) ∧
    (server1_login exCmp [] ("nope") ("wrong")).2.length = 0 := by
  decide

/-- C4 (amended): in server8, a login for a non-existent username
performs exactly one comparison, against the fixed dummy hash, and
returns INVALID_CREDENTIALS; a login for an existing active username
with a wrong password performs exactly one comparison, against the
stored hash, and returns INVALID_CREDENTIALS; in server1 the unknown
username path performs no comparison at all. -/
theorem c4_login_single_compare_amended (cmp : String → String → Bool) (users : List UserRow)
    (uname1 uname2 pw1 pw2 : String) (u : UserRow)
    (h1 : uname1 ≠ "") (hp1 : pw1 ≠ "") (h2 : uname2 ≠ "") (hp2 : pw2 ≠ "")
    (hf1 : users.find? (fun w => w.username == uname1 || w.email == uname1) = none)
    (hf2 : users.find? (fun w => w.username == uname2 || w.email == uname2) = some u)
    (hact : u.is_active = true) (hcmp : cmp pw2 u.password = false) :
    server8_login cmp users uname1 pw1 = (.invalidCredentials, [(pw1, dummyHash)]) ∧
    server8_login cmp users uname2 pw2 = (.invalidCredentials, [(pw2, u.password)]) ∧
    (server8_login cmp users uname1 pw1).2.length = 1 ∧
    (server8_login cmp users uname2 pw2).2.length = 1 ∧
    server1_login cmp users uname1 pw1 = (.invalidCredentials, []) := by
  have hcase1 : server8_login cmp users uname1 pw1 = (.invalidCredentials, [(pw1, dummyHash)]) := by
    unfold server8_login
    rw [if_neg (by simp [h1, hp1]), hf1]
  have hcase2 : server8_login cmp users uname2 pw2 = (.invalidCredentials, [(pw2, u.password)]) := by
    unfold server8_login
    rw [if_neg (by simp [h2, hp2]), hf2]
    dsimp only
    rw [if_neg (by simp [hact]), if_neg (by simp [hcmp])]
  have hcase3 : server1_login cmp users uname1 pw1 = (.invalidCredentials, []) := by
    unfold server1_login
    rw [hf1]
  exact ⟨hcase1, hcase2, by rw [hcase1]; rfl, by rw [hcase2]; rfl, hcase3⟩

/-- C4 witness: the amended theorem at the example accounts, for the
unknown username nope and for admin with a wrong password. -/
theorem c4_login_single_compare_amended_witness :
    server8_login exCmp exUsers ("nope") ("wrong") = (.invalidCredentials, [(("wrong"), dummyHash)]) ∧
    server8_login exCmp exUsers ("admin") ("bad") = (.invalidCredentials, [(("bad"), exAdmin.password)]) ∧
    (server8_login exCmp exUsers ("nope") ("wrong")).2.length = 1 ∧
    (server8_login exCmp exUsers ("admin") ("bad")).2.length = 1 ∧
    server1_login exCmp exUsers ("nope") ("wrong") = (.invalidCredentials, []) :=
  c4_login_single_compare_amended exCmp exUsers ("nope") ("admin") ("wrong") ("bad") exAdmin
    (by decide) (by decide) (by decide) (by decide) (by decide) (by decide) (by decide) (by decide)

/-! C5.  AccountDisabled for inactive accounts.  server8 does report
ACCOUNT_DISABLED after confirming existence, but in part_000 — cited by
the claim — the lookup itself filters on is_active = 1, so an existing
inactive account lands in the no-match branch and gets
INVALID_CREDENTIALS, never AccountDisabled. -/

/-- C5 counterexample: in part_000, a login against the existing but
inactive account alice with the correct password returns
INVALID_CREDENTIALS through the dummy-hash branch, not
ACCOUNT_DISABLED. -/
theorem c5_part000_inactive_gets_invalid_credentials :
    exInactive.is_active = false ∧
    exCmp ("pw") exInactive.password = true ∧
    part000_login exCmp [exInactive] ("alice") ("pw") =
      (.invalidCredentials, [(("pw"), dummyHash)]) := by
  decide

/-- C5 (amended): for an existing account with active = false, server8
fails with ACCOUNT_DISABLED — distinct from INVALID_CREDENTIALS, with no
hash comparison, and only on the branch where the account was found —
while part_000 fails with INVALID_CREDENTIALS via the dummy-hash branch
because its lookup filters inactive accounts out; in both variants the
inactive account never authenticates, whatever the password and the
comparison function. -/
theorem c5_inactive_never_authenticates_amended (cmp : String → String → Bool)
    (users : List UserRow) (uname pw : String) (u : UserRow)
    (hne : uname ≠ "") (hpw : pw ≠ "")
    (hf : users.find? (fun w => w.username == uname || w.email == uname) = some u)
    (hinact : u.is_active = false)
    (hf0 : users.find? (fun w => (w.username == uname || w.email == uname) && w.is_active) = none) :
    server8_login cmp users uname pw = (.accountDisabled, []) ∧
    part000_login cmp users uname pw = (.invalidCredentials, [(pw, dummyHash)]) := by
  constructor
  · unfold server8_login
    rw [if_neg (by simp [hne, hpw]), hf]
    dsimp only
    rw [if_pos hinact]
  · unfold part000_login
    rw [if_neg (by simp [hne, hpw]), hf0]

/-- C5 witness: the amended theorem at the inactive account alice. -/
theorem c5_inactive_never_authenticates_amended_witness :
    server8_login exCmp exUsers ("alice") ("pw") = (.accountDisabled, []) ∧
    part000_login exCmp exUsers ("alice") ("pw") = (.invalidCredentials, [(("pw"), dummyHash)]) :=
  c5_inactive_never_authenticates_amended exCmp exUsers ("alice") ("pw") exInactive
    (by decide) (by decide) (by decide) (by decide) (by decide)

/-! C6.  The claim says only CheckOut ever mutates an existing row and
no operation deletes one.  No variant has a delete endpoint, but the
part_000 update endpoint cited by the claim itself mutates the identity
fields of an existing row. -/

/-- An update body changing only the visitor name. -/
def exUpdateInput : UpdateInput :=
  { visitor_name := some ("Eve"), mobile := none, host_employee := none,
    host_email := none, purpose := none }

/-- The state-machine projection of a row: identity, status,
checkout_time and checkin_time. -/
def lifecycleKey (r : Visitor) : Nat × String × Option Nat × Nat :=
  (r.id, r.status, r.checkout_time, r.checkin_time)

theorem part000_checkout_find_none (s : Store) (vid t a : Nat)
    (hf : s.visitors.find? (fun v => v.id == vid) = none) :
    part000_checkout s vid t a = (s, .notFound) := by
  unfold part000_checkout
  rw [hf]

theorem part000_checkout_find_some (s : Store) (vid t a : Nat) (v : Visitor)
    (hf : s.visitors.find? (fun v => v.id == vid) = some v) :
    part000_checkout s vid t a =
      (if v.status = "checked_out" then (s, .alreadyCheckedOut)
       else if (s.visitors.filter (fun w => w.id == vid && w.status == "checked_in")).length = 0
         then (s, .notFound)
       else ({ s with visitors := s.visitors.map (fun w =>
           if w.id == vid && w.status == "checked_in" then
             { w with
               status := "checked_out"
               checkout_time := some t
               updated_at := some t }
           else w) }, .checkedOut (some a))) := by
  unfold part000_checkout
  rw [hf]

theorem part000_update_find_none (s : Store) (vid : Nat) (inp : UpdateInput) (t : Nat)
    (hf : s.visitors.find? (fun v => v.id == vid) = none) :
    part000_updateVisitor s vid inp t = (s, .notFound) := by
  unfold part000_updateVisitor
  rw [hf]

theorem part000_update_find_some (s : Store) (vid : Nat) (inp : UpdateInput) (t : Nat)
    (old : Visitor) (hf : s.visitors.find? (fun v => v.id == vid) = some old) :
    part000_updateVisitor s vid inp t =
      ({ s with visitors := s.visitors.map (fun v =>
          if v.id == vid then
            { v with
              visitor_name := jsOrElse inp.visitor_name old.visitor_name
              mobile := jsOrElseOpt inp.mobile old.mobile
              host_employee := jsOrElseOpt inp.host_employee old.host_employee
              host_email := jsOrElse inp.host_email old.host_email
              purpose := jsOrElse inp.purpose old.purpose
              updated_at := some t }
          else v) },
        .updated vid) := by
  unfold part000_updateVisitor
  rw [hf]

/-- C6 counterexample: the part_000 update endpoint, on the store with
the checked-in visitor Jane Doe, succeeds and rewrites the row's
visitor_name to Eve — an operation other than CheckOut mutating an
existing visitor row. -/
theorem c6_update_endpoint_mutates :
    (part000_updateVisitor exStoreIn 1 exUpdateInput 7).2 = .updated 1 ∧
    (part000_updateVisitor exStoreIn 1 exUpdateInput 7).1.visitors =
      [{ exVisitorIn with visitor_name := ("Eve"), updated_at := some 7 }] ∧
    exVisitorIn.visitor_name = ("Jane Doe") := by
  decide

/-- C6 (amended): no modelled operation removes a visitor row — the
update endpoint and every checkout variant preserve the row count, and
CreateVisitor only extends the store — and the part_000 update endpoint,
the one mutator besides CheckOut, never touches the state machine
fields: id, status, checkout_time and checkin_time are unchanged on
every row. -/
theorem c6_mutation_scope_amended (s : Store) (vid : Nat) (inp : UpdateInput) (t a : Nat)
    (inp2 : VisitorInput) (creator : Option String) (qrId : String) (b k : Bool) :
    (part000_updateVisitor s vid inp t).1.visitors.length = s.visitors.length ∧
    (part000_updateVisitor s vid inp t).1.visitors.map lifecycleKey =
      s.visitors.map lifecycleKey ∧
    (condCheckoutUpdate s vid t).1.visitors.length = s.visitors.length ∧
    (server1_checkout s vid t).1.visitors.length = s.visitors.length ∧
    (server8_checkout s vid t a).1.visitors.length = s.visitors.length ∧
    (part000_checkout s vid t a).1.visitors.length = s.visitors.length ∧
    s.visitors.length ≤ (server8_createVisitor inp2 creator s qrId t a b k).1.visitors.length := by
  have hupd : (part000_updateVisitor s vid inp t).1.visitors.length = s.visitors.length ∧
      (part000_updateVisitor s vid inp t).1.visitors.map lifecycleKey =
        s.visitors.map lifecycleKey := by
    rcases hf : s.visitors.find? (fun v => v.id == vid) with _ | old
    · rw [part000_update_find_none s vid inp t hf]
      exact ⟨rfl, rfl⟩
    · rw [part000_update_find_some s vid inp t old hf]
      constructor
      · exact List.length_map s.visitors _
      · rw [List.map_map]
        refine List.map_congr_left ?_
        intro v _
        by_cases hv : v.id = vid
        · simp [lifecycleKey, hv]
        · simp [lifecycleKey, hv]
  have hs8 : (server8_checkout s vid t a).1.visitors.length = s.visitors.length := by
    rcases hf : s.visitors.find? (fun w => w.id == vid) with _ | v
    · rw [server8_checkout_find_none s vid t a hf]
    · rw [server8_checkout_find_some s vid t a v hf]
      by_cases hst : v.status = "checked_out"
      · rw [if_pos hst]
      · rw [if_neg hst]
        by_cases haff : (s.visitors.filter (checkoutHit vid)).length = 0
        · rw [if_pos haff]
          exact List.length_map s.visitors _
        · rw [if_neg haff]
          exact List.length_map s.visitors _
  have hp0 : (part000_checkout s vid t a).1.visitors.length = s.visitors.length := by
    rcases hf : s.visitors.find? (fun v => v.id == vid) with _ | v
    · rw [part000_checkout_find_none s vid t a hf]
    · rw [part000_checkout_find_some s vid t a v hf]
      by_cases hst : v.status = "checked_out"
      · rw [if_pos hst]
      · rw [if_neg hst]
        by_cases haff :
            (s.visitors.filter (fun w => w.id == vid && w.status == "checked_in")).length = 0
        · rw [if_pos haff]
        · rw [if_neg haff]
          exact List.length_map s.visitors _
  have hcreate : s.visitors.length ≤
      (server8_createVisitor inp2 creator s qrId t a b k).1.visitors.length := by
    unfold server8_createVisitor
    by_cases hmiss : inp2.visitor_name = "" ∨ inp2.host_email = "" ∨ inp2.purpose = ""
    · rw [if_pos hmiss]
    · rw [if_neg hmiss]
      by_cases hmail : (!emailShape inp2.host_email) = true
      · rw [if_pos hmail]
      · rw [if_neg hmail]
        simp
  refine ⟨hupd.1, hupd.2, List.length_map s.visitors _, ?_, hs8, hp0, hcreate⟩
  · unfold server1_checkout
    by_cases hhit : 0 < (s.visitors.filter (fun v => v.id == vid)).length
    · rw [if_pos hhit]
      exact List.length_map s.visitors _
    · rw [if_neg hhit]
      exact List.length_map s.visitors _

/-! C7.  The listing total.  In server8 the COUNT query is built by a
string replace whose search text — the column list as one single-spaced
line — does not occur in the multi-line template literal, so the count
query stays the plain row query, reading total_count yields undefined,
and the or-zero guard makes the reported total 0 on every request (and
the read throws into the 500 handler when nothing matches).  In part_000
the total comes from a window count read off the first row of the
requested page, so a page beyond the last one reports total 0 as well. -/

/-- C7: with one matching visitor on file, the server8 listing answers
total 0 (and pages 0) while one record matches; the replace needle never
occurs in the query text; an empty result set makes server8 throw into
the 500 handler; and the part_000 listing at page 2, limit 10 also
reports total 0 despite the one matching record. -/
theorem c7_list_total_count_bug :
    server8_list exStoreIn none none none none 1 50 = .listed [exVisitorIn] 1 50 0 0 ∧
    (exStoreIn.visitors.filter (server8_matches none none none none)).length = 1 ∧
    charsContain server8_listSelectNeedle.data server8_listQueryHead.data = false ∧
    server8_list exEmptyStore none none none none 1 50 = .listFailure ∧
    part000_list exStoreIn none none none none none 2 10 ("checkin_time") false =
      .listed [] 2 10 0 0 ∧
    (exStoreIn.visitors.filter (part000_matches none none none none none)).length = 1 := by
  decide

/-! C8.  CreateVisitor persists status checked_in with a null
checkout_time, and the id and checkin_time it returns are the
store-assigned ones (the OUTPUT clause), not client-supplied values —
the request body has no such fields at all. -/

/-- C8: for every valid input, server8 CreateVisitor appends exactly one
row whose id is the store identity value, whose status is checked_in,
whose checkout_time is null and whose checkin_time is the store clock
reading; the response echoes that store-assigned id and checkin_time,
and the identity counter advances. -/
theorem c8_create_checked_in (inp : VisitorInput) (creator : Option String) (s : Store)
    (qrId : String) (appNow dbNow : Nat) (b k : Bool)
    (h1 : ¬(inp.visitor_name = "" ∨ inp.host_email = "" ∨ inp.purpose = ""))
    (h2 : emailShape inp.host_email = true) :
    (server8_createVisitor inp creator s qrId appNow dbNow b k).2 =
      .created s.nextId qrId inp.visitor_name dbNow ∧
    (server8_createVisitor inp creator s qrId appNow dbNow b k).1.visitors.getLast?.map
      lifecycleKey = some (s.nextId, ("checked_in"), none, dbNow) ∧
    (server8_createVisitor inp creator s qrId appNow dbNow b k).1.visitors.length =
      s.visitors.length + 1 ∧
    (server8_createVisitor inp creator s qrId appNow dbNow b k).1.nextId = s.nextId + 1 := by
  unfold server8_createVisitor
  rw [if_neg h1, if_neg (by simp [h2])]
  refine ⟨rfl, ?_, ?_, rfl⟩
  · simp [List.getLast?_concat, lifecycleKey]
  · simp

/-- C8 witness: the theorem at the example input on the empty store with
clocks 31 and 32. -/
theorem c8_create_checked_in_witness :
    (server8_createVisitor exInput none exEmptyStore ("VIS-8") 31 32 true true).2 =
      .created 1 ("VIS-8") ("Jane Doe") 32 ∧
    (server8_createVisitor exInput none exEmptyStore ("VIS-8") 31 32 true true).1.visitors.getLast?.map
      lifecycleKey = some (1, ("checked_in"), none, 32) ∧
    (server8_createVisitor exInput none exEmptyStore ("VIS-8") 31 32 true true).1.visitors.length =
      exEmptyStore.visitors.length + 1 ∧
    (server8_createVisitor exInput none exEmptyStore ("VIS-8") 31 32 true true).1.nextId = 2 :=
  c8_create_checked_in exInput none exEmptyStore ("VIS-8") 31 32 true true
    (by decide) (by decide)

/-! C9.  Mobile validation.  part_000 enforces the ten-digit rule, but
the server8 handler cited by the claim has no mobile check at all, so a
9-digit (or any malformed) mobile is accepted there. -/

/-- A create body carrying a 9-digit mobile number. -/
def exInput9 : VisitorInput := { exInput with mobile := some ("123456789") }

/-- An 11-digit mobile number used by the C9 witness. -/
def exMobile11 : String := "12345678901"

/-- A create body carrying the 11-digit mobile number. -/
def exInput11 : VisitorInput := { exInput with mobile := some exMobile11 }

/-- C9 counterexample: server8 accepts a 9-digit mobile — the creation
succeeds with no ValidationError — while part_000 rejects the same
request with INVALID_MOBILE. -/
theorem c9_server8_accepts_bad_mobile :
    (server8_createVisitor exInput9 none exEmptyStore ("VIS-1") 10 11 true true).2 =
      .created 1 ("VIS-1") ("Jane Doe") 11 ∧
    (part000_createVisitor exInput9 none exEmptyStore ("VIS-1") 10 11 true true).2 =
      .invalidMobile := by
  decide

theorem tenDigitMobile_iff (m : String) :
    tenDigitMobile m = true ↔ (m.data.length = 10 ∧ ∀ c ∈ m.data, c.isDigit = true) := by
  unfold tenDigitMobile
  simp [List.all_eq_true]

/-- C9 (amended): in part_000, a present mobile is rejected with
INVALID_MOBILE exactly when it is not ten characters of decimal digits
— so 9-digit, 11-digit and non-numeric values are rejected and exactly
ten digits pass — while server8 performs no mobile validation and
creates the visitor whatever the mobile value is. -/
theorem c9_mobile_validation_amended (inp : VisitorInput) (creator : Option String) (s : Store)
    (qrId : String) (appNow dbNow : Nat) (b k : Bool) (m : String)
    (hm : inp.mobile = some m) (hmne : m ≠ "")
    (h1 : ¬(inp.visitor_name = "" ∨ inp.host_email = "" ∨ inp.purpose = ""))
    (h2 : emailShape inp.host_email = true) :
    ((part000_createVisitor inp creator s qrId appNow dbNow b k).2 = .invalidMobile ↔
      ¬(m.data.length = 10 ∧ ∀ c ∈ m.data, c.isDigit = true)) ∧
    (server8_createVisitor inp creator s qrId appNow dbNow b k).2 =
      .created s.nextId qrId inp.visitor_name dbNow := by
  have hpres : presentStr (some m) = true := by
    simp [presentStr, hmne]
  constructor
  · unfold part000_createVisitor
    rw [if_neg h1, if_neg (by simp [h2]), hm]
    by_cases ht : tenDigitMobile m = true
    · rw [if_neg (by simp [hpres, ht])]
      constructor
      · intro hcon
        simp at hcon
      · intro hcon
        exact absurd ((tenDigitMobile_iff m).mp ht) hcon
    · have ht' : tenDigitMobile m = false := by
        simpa using ht
      rw [if_pos (by simp [hpres, ht'])]
      constructor
      · intro _
        intro hcon
        exact absurd ((tenDigitMobile_iff m).mpr hcon) ht
      · intro _
        rfl
  · unfold server8_createVisitor
    rw [if_neg h1, if_neg (by simp [h2])]

/-- C9 witness: the amended theorem at the 11-digit mobile — part_000
rejects it with INVALID_MOBILE and server8 creates the visitor. -/
theorem c9_mobile_validation_amended_witness :
    (part000_createVisitor exInput11 none exEmptyStore ("VIS-9") 10 11 true true).2 =
      .invalidMobile ∧
    (server8_createVisitor exInput11 none exEmptyStore ("VIS-9") 10 11 true true).2 =
      .created 1 ("VIS-9") ("Jane Doe") 11 :=
  ⟨(c9_mobile_validation_amended exInput11 none exEmptyStore ("VIS-9") 10 11 true true
      exMobile11 (by decide) (by decide) (by decide) (by decide)).1.mpr (by decide),
    (c9_mobile_validation_amended exInput11 none exEmptyStore ("VIS-9") 10 11 true true
      exMobile11 (by decide) (by decide) (by decide) (by decide)).2⟩

/-! C10.  On a successful checkout, the response checkoutTime is a fresh
application-clock reading taken after the conditional update, while the
row's checkout_time is the store clock stamped by the UPDATE — two
independent readings, the response one never read back from the row. -/

/-- C10: whenever a server8 or part_000 checkout succeeds, the response
checkoutTime equals the application clock reading taken after the
update, for every value of the store clock, and every row the
conditional update touched carries the store clock reading instead. -/
theorem c10_checkout_response_clock (s : Store) (vid dbNow appNow : Nat) (ct ct2 : Option Nat)
    (h8 : (server8_checkout s vid dbNow appNow).2 = .checkedOut ct)
    (h0 : (part000_checkout s vid dbNow appNow).2 = .checkedOut ct2) :
    ct = some appNow ∧ ct2 = some appNow ∧
    (∀ v ∈ s.visitors, checkoutHit vid v = true →
      (checkoutRowUpdate vid dbNow v).checkout_time = some dbNow) := by
  refine ⟨(server8_checkout_success s vid dbNow appNow ct h8).2.1, ?_, ?_⟩
  · rcases hf : s.visitors.find? (fun v => v.id == vid) with _ | v
    · rw [part000_checkout_find_none s vid dbNow appNow hf] at h0
      simp at h0
    · rw [part000_checkout_find_some s vid dbNow appNow v hf] at h0
      by_cases hst : v.status = "checked_out"
      · rw [if_pos hst] at h0
        simp at h0
      · rw [if_neg hst] at h0
        by_cases haff :
            (s.visitors.filter (fun w => w.id == vid && w.status == "checked_in")).length = 0
        · rw [if_pos haff] at h0
          simp at h0
        · rw [if_neg haff] at h0
          simpa using h0.symm
  · intro v _ hhit
    unfold checkoutRowUpdate
    rw [if_pos hhit]

/-- C10 witness: on the one-visitor store with store clock 7 and
application clock 9, both variants answer checkoutTime 9. -/
theorem c10_checkout_response_clock_witness :
    (some 9 : Option Nat) = some 9 ∧ (some 9 : Option Nat) = some 9 :=
  ⟨(c10_checkout_response_clock exStoreIn 1 7 9 (some 9) (some 9)
      (by decide) (by decide)).1,
    (c10_checkout_response_clock exStoreIn 1 7 9 (some 9) (some 9)
      (by decide) (by decide)).2.1⟩

end VisitorApp
